import Mathlib

/-!
Verification development for the MonthlyWrap frontend (React single-page
application).  The repository holds two variants of the main component:

* `src/unnamed/part_000` — the routed variant with Spotify login: a
  `CallbackHandler` component, a session-probe effect on mount, a
  `fetchWrapData` function, a `handleLimitChange` handler and a render tree
  gated on `isLoggedIn`.
* `src/frontend/src/App.js` — the unrouted variant: the same `fetchWrapData`
  body (except for a doubled slash in its top-tracks URL) wired to a
  `useEffect` with dependency list `[limit]`.

The embedding below translates the state object, the network interactions,
the fade/fetch/fade cycle (as an explicit list of primitive actions, since
several properties are about the order of those actions), the render tree
and the event handlers, directly from the source.
-/

namespace MonthlyWrap

/-- A track as received from the backend: `{ name, artists, album_image }`
(spec section 3; consumed by the card renderer). -/
structure Track where
  name : String
  artists : List String
  album_image : String
deriving Repr, DecidableEq

/-- The body of a user-info response.  `display_name` is `none` when the
field is absent from the JSON object. -/
structure UserData where
  display_name : Option String
deriving Repr, DecidableEq

/-- A JavaScript `Error` value as used by the app: only its `message` is
ever consumed (rendered as inline text). -/
structure JsError where
  message : String
deriving Repr, DecidableEq

/-- The component state of the `App` in `src/unnamed/part_000` (the
`useState` hooks, lines 45-50).  The frontend variant has the same fields
minus `isLoggedIn`; we reuse this record for both and simply never touch
`isLoggedIn` in the shared code paths. -/
structure AppState where
  displayName : String
  tracks : List Track
  limit : Nat
  error : Option JsError
  isReloading : Bool
  isLoggedIn : Bool
deriving Repr, DecidableEq

/-- The initial state set by the `useState` initializers. -/
def initialState : AppState :=
  { displayName := ""
    tracks := []
    limit := 5
    error := none
    isReloading := false
    isLoggedIn := false }

/-- Outcome of one `fetch` call: a network failure, or a response carrying
an HTTP status and (for 2xx responses that are consumed) a parsed body. -/
inductive FetchResult (α : Type) where
  | networkError (message : String)
  | response (status : Nat) (body : α)
deriving Repr, DecidableEq

/-- `Response.ok` of the Fetch API: status in the range 200-299. -/
def statusOk (status : Nat) : Bool :=
  decide (200 ≤ status) && decide (status < 300)

/-- JavaScript truthiness of a string: the empty string is falsy. -/
def jsTruthy (s : String) : Bool :=
  s ≠ ""

/-- The expression `x.display_name || dflt` as JavaScript evaluates it on an
optional string field: the default is used when the field is absent, null,
or an empty string (all falsy). -/
def jsOrDefault (x : Option String) (dflt : String) : String :=
  match x with
  | none => dflt
  | some s => if jsTruthy s then s else dflt

/-- Backend base plus `/user-info`, as in both variants. -/
def userInfoUrl : String :=
  "https://monthlywrap.onrender.com/user-info"

/-- The top-tracks URL built by `fetchWrapData` in `src/unnamed/part_000`
line 88: single slash before `top-tracks`. -/
def topTracksUrl (limit : Nat) : String :=
  "https://monthlywrap.onrender.com/top-tracks?limit=" ++ toString limit

/-- The top-tracks URL built by `fetchWrapData` in `src/frontend/src/App.js`
line 34: note the doubled slash before `top-tracks` in the source string. -/
def topTracksUrlFrontend (limit : Nat) : String :=
  "https://monthlywrap.onrender.com//top-tracks?limit=" ++ toString limit

/-- The user-info leg of `fetchWrapData` (both variants): a network failure
rejects with the failure, a non-ok status throws
`User info HTTP error: <status>`, an ok status resolves with the parsed
body. -/
def userInfoLeg (r : FetchResult UserData) : Except JsError UserData :=
  match r with
  | .networkError m => .error ⟨m⟩
  | .response status body =>
    if statusOk status then .ok body
    else .error ⟨"User info HTTP error: " ++ toString status⟩

/-- The top-tracks leg of `fetchWrapData` (both variants): as above with
message `Top tracks HTTP error: <status>`. -/
def topTracksLeg (r : FetchResult (List Track)) : Except JsError (List Track) :=
  match r with
  | .networkError m => .error ⟨m⟩
  | .response status body =>
    if statusOk status then .ok body
    else .error ⟨"Top tracks HTTP error: " ++ toString status⟩

/-- `Promise.all` over the two legs: resolves when both resolve, rejects
with a rejecting leg's error as soon as either rejects. -/
def promiseAll2 {α β : Type} (a : Except JsError α) (b : Except JsError β) :
    Except JsError (α × β) :=
  match a, b with
  | .ok x, .ok y => .ok (x, y)
  | .error e, _ => .error e
  | .ok _, .error e => .error e

/-- The primitive steps `fetchWrapData` performs, in order.  `sleep n` is a
`setTimeout` delay of `n` milliseconds; `issueRequests` is the simultaneous
start of the two credentialed `fetch` calls inside `Promise.all`; the
remaining constructors are the `useState` setters the body calls. -/
inductive Action where
  | setIsReloading (b : Bool)
  | sleep (ms : Nat)
  | issueRequests (userUrl tracksUrl : String) (credentialed : Bool)
  | setDisplayName (s : String)
  | setTracks (ts : List Track)
  | setError (e : JsError)
deriving Repr, DecidableEq

/-- The continuation of the `Promise.all` join in `fetchWrapData`: on both
legs succeeding, set the display name (JS `||` default), wait 100ms, commit
the tracks and clear the reloading flag; on either leg failing, record the
error and clear the reloading flag with no further delay. -/
def joinContinuation (joined : Except JsError (UserData × List Track)) :
    List Action :=
  match joined with
  | .ok (u, ts) =>
    [Action.setDisplayName (jsOrDefault u.display_name "User"),
     Action.sleep 100,
     Action.setTracks ts,
     Action.setIsReloading false]
  | .error e =>
    [Action.setError e, Action.setIsReloading false]

/-- The full action trace of one `fetchWrapData` call, parameterized by the
top-tracks URL (the only difference between the two variants: instantiate
with `topTracksUrl limit` for `part_000` and `topTracksUrlFrontend limit`
for the frontend file) and by the outcomes of the two requests. -/
def fetchWrapTrace (tracksUrl : String) (ur : FetchResult UserData)
    (tr : FetchResult (List Track)) : List Action :=
  Action.setIsReloading true ::
  Action.sleep 300 ::
  Action.issueRequests userInfoUrl tracksUrl true ::
  joinContinuation (promiseAll2 (userInfoLeg ur) (topTracksLeg tr))

/-- Effect of one primitive action on the component state: each `useState`
setter updates its field, the delays and the request issuance do not touch
state. -/
def applyAction (s : AppState) : Action → AppState
  | .setIsReloading b => { s with isReloading := b }
  | .sleep _ => s
  | .issueRequests _ _ _ => s
  | .setDisplayName d => { s with displayName := d }
  | .setTracks ts => { s with tracks := ts }
  | .setError e => { s with error := some e }

/-- Running one whole fade cycle over the state. -/
def runCycle (s : AppState) (tracksUrl : String) (ur : FetchResult UserData)
    (tr : FetchResult (List Track)) : AppState :=
  (fetchWrapTrace tracksUrl ur tr).foldl applyAction s

/-- The session probe of `src/unnamed/part_000` (lines 55-69): one
credentialed request to `/user-info`; ok status sets the display name
(JS `||` default) and marks logged-in, a non-ok status or a network failure
only marks logged-out (the thrown `User not logged in` error is swallowed
by the catch, which ignores its argument). -/
def sessionProbe (r : FetchResult UserData) (s : AppState) : AppState :=
  match r with
  | .networkError _ => { s with isLoggedIn := false }
  | .response status body =>
    if statusOk status then
      { s with displayName := jsOrDefault body.display_name "User"
               isLoggedIn := true }
    else
      { s with isLoggedIn := false }

/-- A request descriptor: URL and whether cookies are included. -/
structure Request where
  url : String
  credentialed : Bool
deriving Repr, DecidableEq

/-- The request the session probe issues (`part_000` line 56): GET to the
user-info endpoint with `credentials: include`. -/
def sessionProbeRequest : Request :=
  { url := userInfoUrl, credentialed := true }

/-- React effect scheduling: an effect with dependency list `depsAt i` at
render `i` runs after the first render and after any render whose
dependency list differs from the previous render's. -/
def effectRuns (depsAt : Nat → List Nat) : Nat → Bool
  | 0 => true
  | j + 1 => depsAt (j + 1) != depsAt j

/-- Number of times an effect has run during the first `n` renders. -/
def effectRunCount (depsAt : Nat → List Nat) : Nat → Nat
  | 0 => 0
  | n + 1 => effectRunCount depsAt n + (if effectRuns depsAt n then 1 else 0)

/-- The dependency list of the session-probe effect is the literal `[]` on
every render. -/
def probeDeps : Nat → List Nat :=
  fun _ => []

/-- Nodes of the rendered output, one constructor per JSX element that the
claims talk about.  `loginCTA` is the `Login with Spotify` anchor,
`dropdown` carries the bound value and the option values, `card` carries the
image source, the title and the comma-joined artist line. -/
inductive Node where
  | heading (text : String)
  | text (s : String)
  | loginCTA
  | dropdown (value : Nat) (options : List Nat)
  | errorText (s : String)
  | noTracks
  | card (image title artistLine : String)
deriving Repr, DecidableEq

/-- One track card (`part_000` lines 168-174, frontend lines 105-111):
album image, track name, artists joined with a comma and a space. -/
def renderCard (t : Track) : Node :=
  Node.card t.album_image t.name (String.intercalate ", " t.artists)

/-- The card container (`part_000` lines 166-175, frontend lines 103-112):
the `No tracks found.` paragraph exactly when the track list is empty and
the app is not reloading, followed by one card per track. -/
def cardContainer (tracks : List Track) (isReloading : Bool) : List Node :=
  (if tracks.length = 0 && !isReloading then [Node.noTracks] else []) ++
  tracks.map renderCard

/-- The option values of the dropdown:
`[...Array(10).keys()].map(i => i + 1)`, that is `1` through `10`. -/
def dropdownOptions : List Nat :=
  (List.range 10).map (· + 1)

/-- The render tree of the home route of the `App` in
`src/unnamed/part_000` (lines 128-179).  Logged out: the welcome heading,
the tagline and the login call-to-action.  Logged in: the greeting, the
dropdown bound to `limit`, the inline error paragraph when `error` is set,
then the card container. -/
def render (s : AppState) : List Node :=
  if !s.isLoggedIn then
    [Node.heading "Welcome to Monthly Wrap",
     Node.text "See your top Spotify tracks for the past 4 weeks.",
     Node.loginCTA]
  else
    [Node.heading ("Hello " ++ s.displayName ++ ", here is your Monthly Wrap!"),
     Node.dropdown s.limit dropdownOptions] ++
    (match s.error with
     | some e => [Node.errorText ("Error: " ++ e.message)]
     | none => []) ++
    cardContainer s.tracks s.isReloading

/-- The events the `part_000` `App` reacts to: the initial mount, the
resolution of the session probe, and a dropdown selection (whose value the
handler parses with `parseInt`; the dropdown only offers 1-10). -/
inductive AppEvent where
  | mount
  | probeResolved (r : FetchResult UserData)
  | limitSelected (n : Nat)
deriving Repr, DecidableEq

/-- The reaction of the `part_000` `App` to an event: the new state paired
with the limits of the `fetchWrapData` cycles the event starts.  Mount runs
the session-probe effect (its request resolution arrives as
`probeResolved`); `handleLimitChange` (lines 116-119) only calls
`setLimit`.  No event handler or effect in `part_000` invokes
`fetchWrapData`: the function is defined on line 76 and never called, so
the started-cycles list is empty in every case. -/
def part000Step (s : AppState) : AppEvent → AppState × List Nat
  | .mount => (s, [])
  | .probeResolved r => (sessionProbe r s, [])
  | .limitSelected n => ({ s with limit := n }, [])

/-- The dependency list of the fetch effect in `src/frontend/src/App.js`
(lines 62-64) is `[limit]`: the effect, which calls `fetchWrapData limit`,
runs on mount and again on every render at which `limit` differs from the
previous render. -/
def fetchEffectDeps (limitAt : Nat → Nat) : Nat → List Nat :=
  fun i => [limitAt i]

/-- Actions of the `CallbackHandler` component (`part_000` lines 9-37). -/
inductive CbAction where
  | fetchCallback (url : String) (credentialed : Bool)
  | navigate (path : String)
deriving Repr, DecidableEq

/-- The URL the callback handler requests (`part_000` line 18): a GET with
`credentials: include`. -/
def callbackUrl (code : String) : String :=
  "https://monthlywrap.onrender.com/callback?code=" ++ code

/-- The mount effect of `CallbackHandler`: with a `code` query parameter it
issues the credentialed GET to `/callback` and navigates home from both the
resolution and the rejection branch; without a `code` it navigates home
directly. -/
def callbackHandler (code : Option String) (requestSucceeded : Bool) :
    List CbAction :=
  match code with
  | some c =>
    CbAction.fetchCallback (callbackUrl c) true ::
    (if requestSucceeded then [CbAction.navigate "/"]
     else [CbAction.navigate "/"])
  | none => [CbAction.navigate "/"]

/-- Predicate for counting `setIsReloading b` actions in a trace. -/
def isSetReloading (b : Bool) : Action → Bool
  | .setIsReloading c => b == c
  | _ => false

/-- Predicate for the card nodes of a render tree. -/
def isCardNode : Node → Bool
  | .card _ _ _ => true
  | _ => false

/-- Whether the `Promise.all` join of a cycle input resolves. -/
def exceptOk {α : Type} : Except JsError α → Bool
  | .ok _ => true
  | .error _ => false

/-- One cycle input of the wrap loader: top-tracks URL and the outcomes of
the two requests. -/
def CycleInput : Type :=
  String × FetchResult UserData × FetchResult (List Track)

/-- The join outcome of a cycle input. -/
def joinResult (c : CycleInput) : Except JsError (UserData × List Track) :=
  promiseAll2 (userInfoLeg c.2.1) (topTracksLeg c.2.2)

/-- Running a sequence of fade cycles over the state. -/
def runCycles (s : AppState) (cs : List CycleInput) : AppState :=
  cs.foldl (fun st c => runCycle st c.1 c.2.1 c.2.2) s

/-- C1: for every fade cycle, if either of the two concurrent requests
fails (non-2xx status or network error, i.e. the `Promise.all` join rejects
with error `e`), the cycle sets `error` to that error and clears
`isReloading`, leaves every other state field — in particular `tracks` —
unchanged from its value before the cycle started, and its trace contains
no 100ms fade-in delay. -/
theorem c1_error_path (s : AppState) (tracksUrl : String)
    (ur : FetchResult UserData) (tr : FetchResult (List Track)) (e : JsError)
    (h : promiseAll2 (userInfoLeg ur) (topTracksLeg tr) = Except.error e) :
    runCycle s tracksUrl ur tr =
      { s with error := some e, isReloading := false } ∧
    (runCycle s tracksUrl ur tr).tracks = s.tracks ∧
    Action.sleep 100 ∉ fetchWrapTrace tracksUrl ur tr := by
  refine ⟨?_, ?_, ?_⟩
  · simp [runCycle, fetchWrapTrace, joinContinuation, h, applyAction]
  · simp [runCycle, fetchWrapTrace, joinContinuation, h, applyAction]
  · simp [fetchWrapTrace, joinContinuation, h]

/-- Witness for C1: a cycle whose user-info request returns status 500. -/
theorem c1_error_path_witness :
    runCycle initialState (topTracksUrl 5) (FetchResult.response 500 ⟨none⟩)
        (FetchResult.response 200 []) =
      { initialState with error := some ⟨"User info HTTP error: 500"⟩,
                          isReloading := false } ∧
    (runCycle initialState (topTracksUrl 5) (FetchResult.response 500 ⟨none⟩)
        (FetchResult.response 200 [])).tracks = initialState.tracks ∧
    Action.sleep 100 ∉ fetchWrapTrace (topTracksUrl 5)
        (FetchResult.response 500 ⟨none⟩) (FetchResult.response 200 []) :=
  c1_error_path initialState (topTracksUrl 5) (FetchResult.response 500 ⟨none⟩)
    (FetchResult.response 200 []) ⟨"User info HTTP error: 500"⟩ rfl

/-- C2 (failing evaluation): in `src/unnamed/part_000` no event starts a
fetch cycle — `fetchWrapData` is defined but never invoked.  Evaluated at
the initial mount and at a logged-in dropdown selection of limit 3: the
limit is updated, but the list of started cycles is empty both times,
whereas the claim requires a cycle on mount and on every limit change. -/
theorem c2_part000_starts_no_cycle :
    part000Step initialState AppEvent.mount = (initialState, []) ∧
    (part000Step { initialState with isLoggedIn := true }
        (AppEvent.limitSelected 3)).2 = [] ∧
    (part000Step { initialState with isLoggedIn := true }
        (AppEvent.limitSelected 3)).1.limit = 3 :=
  ⟨rfl, rfl, rfl⟩

/-- C6 (failing evaluation): the top-tracks URL built by
`src/frontend/src/App.js` at limit 5 carries a doubled slash, so its path
is not `/top-tracks?limit=5`; the `part_000` variant builds the
single-slash URL the claim states. -/
theorem c6_frontend_url_double_slash :
    topTracksUrlFrontend 5 =
      "https://monthlywrap.onrender.com//top-tracks?limit=5" ∧
    topTracksUrlFrontend 5 ≠
      "https://monthlywrap.onrender.com" ++ "/top-tracks?limit=5" ∧
    topTracksUrl 5 =
      "https://monthlywrap.onrender.com" ++ "/top-tracks?limit=5" :=
  ⟨rfl, by decide, rfl⟩

/-- C10: the `CallbackHandler` issues the credentialed GET to the backend
`/callback` endpoint exactly when a `code` query parameter is present, and
in every case — code absent, request success, or request failure — its last
action is a navigation to the home route. -/
theorem c10_callback_handler (c : String) (o : Bool) (code : Option String) :
    callbackHandler (some c) o =
      [CbAction.fetchCallback (callbackUrl c) true, CbAction.navigate "/"] ∧
    (∀ u b, CbAction.fetchCallback u b ∉ callbackHandler none o) ∧
    (callbackHandler code o).getLast? = some (CbAction.navigate "/") := by
  refine ⟨by cases o <;> rfl, by simp [callbackHandler], ?_⟩
  cases code <;> cases o <;> rfl

/-- Witness for C10 at a concrete code and outcome. -/
theorem c10_callback_handler_witness :
    callbackHandler (some "abc") false =
      [CbAction.fetchCallback (callbackUrl "abc") true, CbAction.navigate "/"] ∧
    (∀ u b, CbAction.fetchCallback u b ∉ callbackHandler none false) ∧
    (callbackHandler (some "abc") false).getLast? =
      some (CbAction.navigate "/") :=
  c10_callback_handler "abc" false (some "abc")

/-- C3: whenever `isLoggedIn` is false the render tree contains the login
call-to-action and neither the dropdown nor any track card; whenever it is
true the render tree contains the greeting, the dropdown bound to `limit`
with options 1-10, and no login call-to-action. -/
theorem c3_login_gating (s : AppState) :
    (s.isLoggedIn = false →
      Node.loginCTA ∈ render s ∧
      (∀ v opts, Node.dropdown v opts ∉ render s) ∧
      (∀ i t a, Node.card i t a ∉ render s)) ∧
    (s.isLoggedIn = true →
      Node.heading ("Hello " ++ s.displayName ++ ", here is your Monthly Wrap!")
          ∈ render s ∧
      Node.dropdown s.limit dropdownOptions ∈ render s ∧
      Node.loginCTA ∉ render s) := by
  constructor
  · intro h
    refine ⟨by simp [render, h], ?_, ?_⟩
    · intro v opts
      simp [render, h]
    · intro i t a
      simp [render, h]
  · intro h
    refine ⟨by simp [render, h], by simp [render, h], ?_⟩
    cases he : s.error with
    | none =>
      simp [render, h, he, cardContainer, renderCard]
    | some e =>
      simp [render, h, he, cardContainer, renderCard]

/-- Witness for C3: the initial (logged-out) state and its logged-in
variant. -/
theorem c3_login_gating_witness :
    (Node.loginCTA ∈ render initialState ∧
     (∀ v opts, Node.dropdown v opts ∉ render initialState) ∧
     (∀ i t a, Node.card i t a ∉ render initialState)) ∧
    (Node.heading ("Hello " ++ { initialState with isLoggedIn := true }.displayName
          ++ ", here is your Monthly Wrap!")
        ∈ render { initialState with isLoggedIn := true } ∧
     Node.dropdown { initialState with isLoggedIn := true }.limit dropdownOptions
        ∈ render { initialState with isLoggedIn := true } ∧
     Node.loginCTA ∉ render { initialState with isLoggedIn := true }) :=
  ⟨(c3_login_gating initialState).1 rfl,
   (c3_login_gating { initialState with isLoggedIn := true }).2 rfl⟩

/-- C4 (counterexample): a 2xx user-info response whose `display_name` is
present but equal to the empty string.  The claim says the probe sets
`displayName` to the returned `display_name` (defaulting only when absent),
but the code evaluates `userData.display_name || 'User'` and the empty
string is falsy in JavaScript, so `displayName` becomes `User`, not the
returned empty string. -/
theorem c4_empty_display_name :
    (sessionProbe (FetchResult.response 200 ⟨some ""⟩) initialState).displayName
      = "User" ∧
    (sessionProbe (FetchResult.response 200 ⟨some ""⟩) initialState).displayName
      ≠ "" :=
  ⟨rfl, by decide⟩

/-- C4 (amended): the session probe is one credentialed request to the
user-info endpoint whose effect (empty dependency list) runs exactly once
over any number of renders; a 2xx response sets `displayName` to the
returned `display_name` — defaulting to `User` when the field is absent or
empty, since JS `||` treats the empty string as falsy — and sets
`isLoggedIn`; any non-2xx response or network failure only clears
`isLoggedIn`, leaving `error` and every other field untouched. -/
theorem c4_session_probe :
    (sessionProbeRequest.url = userInfoUrl ∧
     sessionProbeRequest.credentialed = true) ∧
    (∀ n : Nat, effectRunCount probeDeps (n + 1) = 1) ∧
    (∀ (s : AppState) (status : Nat) (body : UserData),
      statusOk status = true →
      sessionProbe (FetchResult.response status body) s =
        { s with displayName := jsOrDefault body.display_name "User",
                 isLoggedIn := true }) ∧
    (∀ (s : AppState) (status : Nat) (body : UserData),
      statusOk status = false →
      sessionProbe (FetchResult.response status body) s =
        { s with isLoggedIn := false }) ∧
    (∀ (s : AppState) (m : String),
      sessionProbe (FetchResult.networkError m) s =
        { s with isLoggedIn := false }) := by
  refine ⟨⟨rfl, rfl⟩, ?_, ?_, ?_, ?_⟩
  · intro n
    induction n with
    | zero => rfl
    | succ k ih =>
      have hr : effectRuns probeDeps (k + 1) = false := by
        simp [effectRuns, probeDeps]
      simp [effectRunCount, hr] at ih ⊢
      simpa [effectRunCount, hr] using ih
  · intro s status body hs
    simp [sessionProbe, hs]
  · intro s status body hs
    simp [sessionProbe, hs]
  · intro s m
    rfl

/-- Witness for C4: a 2xx probe with a present name, a 404 probe, and three
renders of the probe effect. -/
theorem c4_session_probe_witness :
    sessionProbe (FetchResult.response 200 ⟨some "Alice"⟩) initialState =
      { initialState with displayName := jsOrDefault (some "Alice") "User",
                          isLoggedIn := true } ∧
    sessionProbe (FetchResult.response 404 ⟨none⟩) initialState =
      { initialState with isLoggedIn := false } ∧
    effectRunCount probeDeps 3 = 1 :=
  ⟨c4_session_probe.2.2.1 initialState 200 ⟨some "Alice"⟩ rfl,
   c4_session_probe.2.2.2.1 initialState 404 ⟨none⟩ rfl,
   c4_session_probe.2.1 2⟩

/-- C5 (counterexample): a successful cycle whose user-info body carries
`display_name` present but empty.  The claim says `displayName` is updated
to the returned `display_name` (defaulting only when absent), but the trace
sets it to `User` — JS `||` treats the empty string as falsy — and never
sets it to the returned empty string. -/
theorem c5_empty_display_name :
    Action.setDisplayName "User" ∈
      fetchWrapTrace (topTracksUrl 5) (FetchResult.response 200 ⟨some ""⟩)
        (FetchResult.response 200 []) ∧
    Action.setDisplayName "" ∉
      fetchWrapTrace (topTracksUrl 5) (FetchResult.response 200 ⟨some ""⟩)
        (FetchResult.response 200 []) := by
  decide

/-- C5 (amended): every fade cycle performs its steps in this order:
`isReloading` is set true first; the 300ms delay follows; then the
user-info and top-tracks requests are issued concurrently; only when both
succeed is `displayName` updated — to the returned `display_name`,
defaulting to `User` when it is absent or empty — and then, after the
further 100ms delay, the new track list is committed and `isReloading` is
cleared; when the join fails the trace performs no `setDisplayName` at
all. -/
theorem c5_cycle_step_order (limit : Nat) (ur : FetchResult UserData)
    (tr : FetchResult (List Track)) :
    (fetchWrapTrace (topTracksUrl limit) ur tr).head? =
      some (Action.setIsReloading true) ∧
    (fetchWrapTrace (topTracksUrl limit) ur tr).get? 1 =
      some (Action.sleep 300) ∧
    (fetchWrapTrace (topTracksUrl limit) ur tr).get? 2 =
      some (Action.issueRequests userInfoUrl (topTracksUrl limit) true) ∧
    (∀ u ts, promiseAll2 (userInfoLeg ur) (topTracksLeg tr) = Except.ok (u, ts) →
      fetchWrapTrace (topTracksUrl limit) ur tr =
        [Action.setIsReloading true, Action.sleep 300,
         Action.issueRequests userInfoUrl (topTracksUrl limit) true,
         Action.setDisplayName (jsOrDefault u.display_name "User"),
         Action.sleep 100, Action.setTracks ts,
         Action.setIsReloading false]) ∧
    (∀ e, promiseAll2 (userInfoLeg ur) (topTracksLeg tr) = Except.error e →
      ∀ d, Action.setDisplayName d ∉ fetchWrapTrace (topTracksUrl limit) ur tr) := by
  refine ⟨rfl, rfl, rfl, ?_, ?_⟩
  · intro u ts h
    simp [fetchWrapTrace, joinContinuation, h]
  · intro e h d
    simp [fetchWrapTrace, joinContinuation, h]

/-- Witness for C5: a successful cycle at limit 5 with a present display
name and an empty track list. -/
theorem c5_cycle_step_order_witness :
    fetchWrapTrace (topTracksUrl 5) (FetchResult.response 200 ⟨some "Alice"⟩)
        (FetchResult.response 200 []) =
      [Action.setIsReloading true, Action.sleep 300,
       Action.issueRequests userInfoUrl (topTracksUrl 5) true,
       Action.setDisplayName (jsOrDefault (some "Alice") "User"),
       Action.sleep 100, Action.setTracks [],
       Action.setIsReloading false] :=
  (c5_cycle_step_order 5 (FetchResult.response 200 ⟨some "Alice"⟩)
      (FetchResult.response 200 [])).2.2.2.1 ⟨some "Alice"⟩ [] rfl

/-- C7: in the trace of every fade cycle, `isReloading` is set true first,
each of `setIsReloading true` and `setIsReloading false` occurs exactly
once, the trace ends with the single `setIsReloading false`, and that
clearing happens either after the 100ms delay and the track commit (success
path) or right after recording the error (error path). -/
theorem c7_isReloading_once (tracksUrl : String) (ur : FetchResult UserData)
    (tr : FetchResult (List Track)) :
    (fetchWrapTrace tracksUrl ur tr).head? =
      some (Action.setIsReloading true) ∧
    ((fetchWrapTrace tracksUrl ur tr).filter (isSetReloading true)).length = 1 ∧
    ((fetchWrapTrace tracksUrl ur tr).filter (isSetReloading false)).length = 1 ∧
    (fetchWrapTrace tracksUrl ur tr).getLast? =
      some (Action.setIsReloading false) ∧
    ((∃ ts, [Action.sleep 100, Action.setTracks ts, Action.setIsReloading false]
        <:+ fetchWrapTrace tracksUrl ur tr) ∨
     (∃ e, [Action.setError e, Action.setIsReloading false]
        <:+ fetchWrapTrace tracksUrl ur tr)) := by
  cases hj : promiseAll2 (userInfoLeg ur) (topTracksLeg tr) with
  | ok p =>
    obtain ⟨u, ts⟩ := p
    refine ⟨?_, ?_, ?_, ?_, ?_⟩ <;>
      simp [fetchWrapTrace, joinContinuation, hj, isSetReloading]
    exact Or.inl ⟨ts, [Action.setIsReloading true, Action.sleep 300,
      Action.issueRequests userInfoUrl tracksUrl true,
      Action.setDisplayName (jsOrDefault u.display_name "User")], rfl⟩
  | error e =>
    refine ⟨?_, ?_, ?_, ?_, ?_⟩ <;>
      simp [fetchWrapTrace, joinContinuation, hj, isSetReloading]
    exact Or.inr ⟨e, [Action.setIsReloading true, Action.sleep 300,
      Action.issueRequests userInfoUrl tracksUrl true], rfl⟩

/-- C8: the card nodes of the card container are exactly one card per track
in order, each binding the album image, the track name and the artists
joined with a comma and a space; consequently the card count equals the
track count; and the `No tracks found.` node appears exactly when the track
list is empty and the app is not reloading. -/
theorem c8_card_grid (tracks : List Track) (reloading : Bool) :
    (cardContainer tracks reloading).filter isCardNode =
      tracks.map (fun t =>
        Node.card t.album_image t.name (String.intercalate ", " t.artists)) ∧
    ((cardContainer tracks reloading).filter isCardNode).length =
      tracks.length ∧
    (Node.noTracks ∈ cardContainer tracks reloading ↔
      tracks = [] ∧ reloading = false) := by
  have hmap : ∀ l : List Track, (l.map renderCard).filter isCardNode =
      l.map renderCard := by
    intro l
    refine List.filter_eq_self.mpr ?_
    intro a ha
    rcases List.mem_map.mp ha with ⟨t, _, rfl⟩
    rfl
  have h1 : (cardContainer tracks reloading).filter isCardNode =
      tracks.map renderCard := by
    cases tracks with
    | nil => cases reloading <;> rfl
    | cons t ts => simpa [cardContainer] using hmap (t :: ts)
  refine ⟨h1, ?_, ?_⟩
  · rw [h1, List.length_map]
  · cases tracks with
    | nil => cases reloading <;> simp [cardContainer]
    | cons t ts => simp [cardContainer, renderCard]

/-- The success path of one fade cycle: when the `Promise.all` join
resolves, the cycle updates exactly `displayName`, `tracks` and
`isReloading`, leaving `limit`, `error` and `isLoggedIn` as they were. -/
theorem runCycle_success (s : AppState) (url : String)
    (ur : FetchResult UserData) (tr : FetchResult (List Track))
    (u : UserData) (ts : List Track)
    (h : promiseAll2 (userInfoLeg ur) (topTracksLeg tr) = Except.ok (u, ts)) :
    runCycle s url ur tr =
      { s with displayName := jsOrDefault u.display_name "User",
               tracks := ts, isReloading := false } := by
  simp [runCycle, fetchWrapTrace, joinContinuation, h, applyAction]

/-- Over any list of cycles whose joins all resolve, the `error` field and
the `isLoggedIn` field are carried through unchanged. -/
theorem runCycles_success_frame (cs : List CycleInput) :
    ∀ (s : AppState) (e : JsError), s.error = some e →
    (∀ c ∈ cs, exceptOk (joinResult c) = true) →
    (runCycles s cs).error = some e ∧
    (runCycles s cs).isLoggedIn = s.isLoggedIn := by
  induction cs with
  | nil =>
    intro s e h _
    exact ⟨h, rfl⟩
  | cons c rest ih =>
    intro s e h hall
    have hc : exceptOk (joinResult c) = true := hall c (List.mem_cons_self c rest)
    cases hj : joinResult c with
    | error e2 => simp [exceptOk, hj] at hc
    | ok p =>
      obtain ⟨u, ts⟩ := p
      have hstep : runCycle s c.1 c.2.1 c.2.2 =
          { s with displayName := jsOrDefault u.display_name "User",
                   tracks := ts, isReloading := false } :=
        runCycle_success s c.1 c.2.1 c.2.2 u ts hj
      have : runCycles s (c :: rest) =
          runCycles (runCycle s c.1 c.2.1 c.2.2) rest := rfl
      rw [this, hstep]
      exact ih _ e h (fun d hd => hall d (List.mem_cons_of_mem c hd))

/-- C9: once `error` holds some error `e`, the success path of a cycle
updates only `displayName`, `tracks` and `isReloading`; no primitive action
ever clears `error`; neither the session probe nor a limit selection
touches it; and across any sequence of successful cycles `error` stays `e`
and, while logged in, its message stays rendered as inline text. -/
theorem c9_error_persistence (s : AppState) (e : JsError)
    (h : s.error = some e) :
    (∀ (url : String) (ur : FetchResult UserData)
        (tr : FetchResult (List Track)) (u : UserData) (ts : List Track),
      promiseAll2 (userInfoLeg ur) (topTracksLeg tr) = Except.ok (u, ts) →
      runCycle s url ur tr =
        { s with displayName := jsOrDefault u.display_name "User",
                 tracks := ts, isReloading := false }) ∧
    (∀ a, (applyAction s a).error ≠ none) ∧
    (∀ ev, ((part000Step s ev).1).error = some e) ∧
    (∀ cs : List CycleInput, (∀ c ∈ cs, exceptOk (joinResult c) = true) →
      (runCycles s cs).error = some e ∧
      ((runCycles s cs).isLoggedIn = true →
        Node.errorText ("Error: " ++ e.message) ∈ render (runCycles s cs))) := by
  refine ⟨?_, ?_, ?_, ?_⟩
  · intro url ur tr u ts hj
    exact runCycle_success s url ur tr u ts hj
  · intro a
    cases a <;> simp [applyAction, h]
  · intro ev
    cases ev with
    | mount => simpa [part000Step] using h
    | limitSelected n => simpa [part000Step] using h
    | probeResolved r =>
      cases r with
      | networkError m => simpa [part000Step, sessionProbe] using h
      | response status body =>
        by_cases hs : statusOk status = true
        · simpa [part000Step, sessionProbe, hs] using h
        · simpa [part000Step, sessionProbe, hs] using h
  · intro cs hall
    obtain ⟨herr, _⟩ := runCycles_success_frame cs s e h hall
    refine ⟨herr, ?_⟩
    intro hin
    simp [render, hin, herr]

/-- Witness for C9: an errored state carried through one successful cycle
keeps its error and, logged in, still renders its message. -/
theorem c9_error_persistence_witness :
    (runCycles { initialState with error := some ⟨"boom"⟩, isLoggedIn := true }
        [(topTracksUrl 5, FetchResult.response 200 ⟨some "Alice"⟩,
          FetchResult.response 200 [])]).error = some ⟨"boom"⟩ ∧
    Node.errorText ("Error: " ++ "boom") ∈
      render (runCycles
        { initialState with error := some ⟨"boom"⟩, isLoggedIn := true }
        [(topTracksUrl 5, FetchResult.response 200 ⟨some "Alice"⟩,
          FetchResult.response 200 [])]) := by
  have H := (c9_error_persistence
      { initialState with error := some ⟨"boom"⟩, isLoggedIn := true }
      ⟨"boom"⟩ rfl).2.2.2
      [(topTracksUrl 5, FetchResult.response 200 ⟨some "Alice"⟩,
        FetchResult.response 200 [])]
      (by decide)
  exact ⟨H.1, H.2 (by decide)⟩

end MonthlyWrap
